import Mathlib

/-!
Verification of the land-potential analysis pipeline of the `geopotent`
repository (`src/potential_app/views.py`, `ProcessAnalysisView.get`).

The pipeline is a Python request handler working over dynamically typed
dictionaries.  We embed the dictionary values that flow through the
handler as a small value type `Val` (strings and exact rational numbers),
dictionaries as association lists, and each fallible external stage
(`get_soil_data`, `recommend_crops`, `estimate_energy_potential`,
`estimate_agri_revenue`, `calculate_mixed_potential`) as a function
returning `Except Unit (Option _)`: `Except.error` models the call
raising an exception, `Option` models a `None`/falsy return that the
handler patches with `or <default>`.
-/

/-- A primitive Python value appearing in the result dictionaries:
a string or an (exact) number. -/
inductive Val where
  | str : String → Val
  | num : ℚ → Val
  deriving DecidableEq, Repr

/-- A monthly-breakdown bucket: a Python dict from string keys to
primitive values, embedded as an association list (first binding wins,
as `dict.get` does). -/
abbrev Bucket := List (String × Val)

/-- `item.get(k)`: first binding of `k` in the dict. -/
def dget (b : Bucket) (k : String) : Option Val := b.lookup k

/-- `item.get(k, d)`: lookup with default. -/
def dgetD (b : Bucket) (k : String) (d : Val) : Val := (dget b k).getD d

/-- Python `+` on primitive values: number addition or string
concatenation; a mixed application raises `TypeError`, modelled as
`none`. -/
def pyAdd : Val → Val → Option Val
  | .num a, .num b => some (.num (a + b))
  | .str a, .str b => some (.str (a ++ b))
  | _, _ => none

/-- views.py lines 171-183: build one normalized monthly bucket.
Python evaluates the fallback argument of `item.get("energy", ...)`
eagerly, so the addition of the `pv_energy_kwh` and `wind_energy_kwh`
entries runs (and can raise `TypeError`, modelled as `none`) even when
the `energy` key is present. -/
def normalizeBucket (item : Bucket) : Option Bucket :=
  match pyAdd (dgetD item "pv_energy_kwh" (.num 0))
              (dgetD item "wind_energy_kwh" (.num 0)) with
  | none => none
  | some energyDefault =>
      some [("month", dgetD item "month" (.str "")),
            ("energy", dgetD item "energy" energyDefault),
            ("revenue", dgetD item "revenue" (dgetD item "revenue_inr" (.num 0))),
            ("pv_energy_kwh", dgetD item "pv_energy_kwh" (.num 0)),
            ("wind_energy_kwh", dgetD item "wind_energy_kwh" (.num 0))]

/-- views.py lines 169-185: the loop over `monthly_breakdown`.  An
exception inside the loop aborts the whole request handler (the loop is
outside every local `try`), so one bad bucket makes the whole list
`none`. -/
def normalizeBuckets : List Bucket → Option (List Bucket)
  | [] => some []
  | b :: bs =>
      match normalizeBucket b, normalizeBuckets bs with
      | some n, some ns => some (n :: ns)
      | _, _ => none

/-- A raw soil value from the gateway: either already a per-layer dict
(`isinstance(value, dict)` in views.py line 96) or a scalar. -/
inductive SoilVal where
  | dict : List (String × Val) → SoilVal
  | scalar : Val → SoilVal
  deriving DecidableEq, Repr

/-- The gateway's soil mapping and the handler's `soil_data`. -/
abbrev SoilData := List (String × SoilVal)

/-- views.py lines 96-103: a per-layer dict is kept, a scalar is
broadcast to the three depth layers. -/
def broadcastSoil : SoilVal → SoilVal
  | .dict m => .dict m
  | .scalar v => .dict [("0-5cm", v), ("5-15cm", v), ("15-30cm", v)]

/-- views.py lines 94-105: rebuild `soil_data` property by property. -/
def buildSoilData (raw : SoilData) : SoilData :=
  raw.map (fun p => (p.1, broadcastSoil p.2))

/-- views.py lines 121-125: derive the `area_m2` passed to the energy
estimator and the `area_ha` passed to the agri/mixed estimators from the
stored fields.  `none` models a stored `NULL`; Python truthiness on a
number is `≠ 0`. -/
def pyArea (storedM2 storedHa : Option ℚ) : ℚ × ℚ :=
  let fallback : ℚ :=
    match storedHa with
    | some h => if h ≠ 0 then h * 10000 else 0
    | none => 0
  let m2 : ℚ :=
    match storedM2 with
    | some v => if v ≠ 0 then v else fallback
    | none => fallback
  let ha : ℚ := if m2 ≠ 0 then m2 / 10000 else 0
  (m2, ha)

/-- The dict returned by `estimate_energy_potential`, restricted to the
keys the handler reads; `none` means the key is absent (so `setdefault`
fills it). -/
structure EnergyDict where
  total_energy_kwh : Option Val
  pv_energy_kwh : Option Val
  wind_energy_kwh : Option Val
  total_revenue : Option Val
  monthly_breakdown : Option (List Bucket)
  hourly_plot : Option Val
  daily_plot : Option Val
  deriving DecidableEq, Repr

/-- The empty dict `{}` that replaces a failed or falsy energy result
(views.py lines 150, 155). -/
def emptyEnergyDict : EnergyDict := ⟨none, none, none, none, none, none, none⟩

/-- `energy_results` after the `setdefault` block: every key present. -/
structure NormEnergy where
  total_energy_kwh : Val
  pv_energy_kwh : Val
  wind_energy_kwh : Val
  total_revenue : Val
  monthly_breakdown : List Bucket
  hourly_plot : Val
  daily_plot : Val
  deriving DecidableEq, Repr

/-- views.py lines 160-166: the `setdefault` block. -/
def setDefaults (d : EnergyDict) : NormEnergy :=
  ⟨d.total_energy_kwh.getD (.num 0),
   d.pv_energy_kwh.getD (.num 0),
   d.wind_energy_kwh.getD (.num 0),
   d.total_revenue.getD (.num 0),
   d.monthly_breakdown.getD [],
   d.hourly_plot.getD (.str ""),
   d.daily_plot.getD (.str "")⟩

/-- The all-zero `EnergyResult` the spec's fail-safe policy names. -/
def zeroNormEnergy : NormEnergy :=
  ⟨.num 0, .num 0, .num 0, .num 0, [], .str "", .str ""⟩

/-- A crop recommendation as the handler sees it: an opaque dict. -/
abbrev CropRec := List (String × Val)

/-- A value in the agri-revenue dict: a primitive or a list (needed for
the `"details": []` default). -/
inductive AgriVal where
  | prim : Val → AgriVal
  | arr : List Val → AgriVal
  deriving DecidableEq, Repr

/-- The dict returned by `estimate_agri_revenue`, kept generic. -/
abbrev AgriDict := List (String × AgriVal)

/-- views.py lines 191-195: the agri default `{"details": []}`. -/
def defaultAgri : AgriDict := [("details", AgriVal.arr [])]

/-- `x or default` on the agri dict: Python treats `None` and the empty
dict as falsy. -/
def pyOrAgri (r : Option AgriDict) : AgriDict :=
  match r with
  | none => defaultAgri
  | some l => if l = [] then defaultAgri else l

/-- One land-use scenario of `calculate_mixed_potential`: fraction of
the parcel devoted to energy, and the resulting revenue. -/
structure Scenario where
  energy_fraction : ℚ
  revenue : ℚ
  deriving DecidableEq, Repr

/-- The dict returned by `calculate_mixed_potential`; `best_scenario =
none` models the `{}` placeholder of the failure default. -/
structure MixedDict where
  scenarios : List Scenario
  best_scenario : Option Scenario
  deriving DecidableEq, Repr

/-- views.py lines 200-202: the mixed default
`{"scenarios": [], "best_scenario": {}}`. -/
def defaultMixed : MixedDict := ⟨[], none⟩

/-- The stored `LandAnalysis` fields the handler reads (the PV/wind
configuration and date fields are only passed through verbatim to
`estimate_energy_potential` and are absorbed into that stage's function
argument below). -/
structure Analysis where
  latitude : ℚ
  longitude : ℚ
  area_m2 : Option ℚ
  area_ha : Option ℚ
  deriving DecidableEq, Repr

/-- What `analysis.save()` persists at views.py line 208: `soil_data`,
`crop_recommendations`, and `energy_results` with its two extra keys
`agri_revenue` and `mixed_analysis` (lines 204-205) flattened out. -/
structure SavedDoc where
  soil_data : SoilData
  crop_recommendations : List CropRec
  energy_results : NormEnergy
  agri_revenue : AgriDict
  mixed_analysis : MixedDict
  deriving DecidableEq, Repr

/-- views.py lines 110-115: the crop-recommendation stage; a raise or a
falsy return (`or []`) becomes the empty list. -/
def cropStage (recommend_crops : SoilData → Except Unit (Option (List CropRec)))
    (soil_data : SoilData) : List CropRec :=
  match recommend_crops soil_data with
  | .error _ => []
  | .ok r => r.getD []

/-- views.py lines 120-155: the energy-estimation stage; a raise or a
falsy return (`or {}`) becomes the empty dict. -/
def energyStage (estimate_energy_potential : ℚ → ℚ → ℚ → Except Unit (Option EnergyDict))
    (lat lon area_m2 : ℚ) : EnergyDict :=
  match estimate_energy_potential lat lon area_m2 with
  | .error _ => emptyEnergyDict
  | .ok r => r.getD emptyEnergyDict

/-- views.py lines 190-195: the agri-revenue stage; a raise or a falsy
return becomes `{"details": []}`. -/
def agriStage (estimate_agri_revenue : List CropRec → ℚ → Except Unit (Option AgriDict))
    (crops : List CropRec) (area_ha : ℚ) : AgriDict :=
  match estimate_agri_revenue crops area_ha with
  | .error _ => defaultAgri
  | .ok r => pyOrAgri r

/-- views.py lines 197-202: the mixed-analysis stage; a raise or a falsy
return becomes `{"scenarios": [], "best_scenario": {}}`. -/
def mixedStage (calculate_mixed_potential : NormEnergy → AgriDict → ℚ → Except Unit (Option MixedDict))
    (e : NormEnergy) (agri : AgriDict) (area_ha : ℚ) : MixedDict :=
  match calculate_mixed_potential e agri area_ha with
  | .error _ => defaultMixed
  | .ok r => r.getD defaultMixed

/-- views.py line 185: `energy_results["monthly_breakdown"] =
normalized_months`. -/
def normEnergyWith (e : NormEnergy) (ms : List Bucket) : NormEnergy :=
  ⟨e.total_energy_kwh, e.pv_energy_kwh, e.wind_energy_kwh,
   e.total_revenue, ms, e.hourly_plot, e.daily_plot⟩

/-- views.py lines 85-217, `ProcessAnalysisView.get` for an existing
`LandAnalysis` row.  Each external stage is a parameter returning
`Except Unit (Option _)`: `.error` = the call raised, `.ok none` = it
returned `None` (or an empty, falsy dict).  The outer `try` of the
handler turns every uncaught exception into `redirect("index")` with
nothing saved, modelled as `Except.error ()`; success saves a
`SavedDoc` and redirects to the results page. -/
def processAnalysis (analysis : Analysis)
    (get_soil_data : ℚ → ℚ → Except Unit (Option SoilData))
    (recommend_crops : SoilData → Except Unit (Option (List CropRec)))
    (estimate_energy_potential : ℚ → ℚ → ℚ → Except Unit (Option EnergyDict))
    (estimate_agri_revenue : List CropRec → ℚ → Except Unit (Option AgriDict))
    (calculate_mixed_potential : NormEnergy → AgriDict → ℚ → Except Unit (Option MixedDict)) :
    Except Unit SavedDoc :=
  -- line 92: NOT inside a local try: a raise here reaches the outer handler
  match get_soil_data analysis.latitude analysis.longitude with
  | .error _ => .error ()
  | .ok rawOpt =>
    let soil_data := buildSoilData (rawOpt.getD [])     -- lines 92-105 (`or {}`)
    let crop_recommendations := cropStage recommend_crops soil_data
    let area := pyArea analysis.area_m2 analysis.area_ha -- lines 121-125
    let e0 := setDefaults                                -- lines 120-166
      (energyStage estimate_energy_potential analysis.latitude analysis.longitude area.1)
    -- lines 168-185: NOT inside a local try: a TypeError here aborts the run
    match normalizeBuckets e0.monthly_breakdown with
    | none => .error ()
    | some normalized =>
      let e1 := normEnergyWith e0 normalized
      let agri_revenue := agriStage estimate_agri_revenue crop_recommendations area.2
      let mixed_analysis := mixedStage calculate_mixed_potential e1 agri_revenue area.2
      .ok ⟨soil_data, crop_recommendations, e1, agri_revenue, mixed_analysis⟩

/-- Modelled from the spec: `calculate_mixed_potential` is defined in
`utils/energy_estimation.py`, which is not among the provided sources;
only its caller (views.py line 198) is.  Spec §4.4 fixes the candidate
allocation fractions `f ∈ {0.0, 0.25, 0.5, 0.75, 1.0}`. -/
def scenarioFractions : List ℚ := [0, 1/4, 1/2, 3/4, 1]

/-- Modelled from the spec (§4.4): `revenue(f) = f × energy_revenue +
(1 − f) × agri_revenue`. -/
def scenarioRevenue (energyRevenue agriRevenue f : ℚ) : ℚ :=
  f * energyRevenue + (1 - f) * agriRevenue

/-- Modelled from the spec (§4.4): one scenario per candidate fraction. -/
def buildScenarios (energyRevenue agriRevenue : ℚ) : List Scenario :=
  scenarioFractions.map (fun f => ⟨f, scenarioRevenue energyRevenue agriRevenue f⟩)

/-- Modelled from the spec (§4.4): `s` beats the current best `t` when
its revenue is strictly larger, or on an exact revenue tie when its
fraction is strictly closer to 1/2 (the documented tie-break). -/
def betterScenario (s t : Scenario) : Bool :=
  decide (t.revenue < s.revenue) ||
    (decide (s.revenue = t.revenue) &&
     decide (|s.energy_fraction - 1/2| < |t.energy_fraction - 1/2|))

/-- Modelled from the spec (§4.4): fold selecting the argmax under the
tie-break order. -/
def pickBest (best : Scenario) : List Scenario → Scenario
  | [] => best
  | s :: rest => pickBest (if betterScenario s best then s else best) rest

/-- Modelled from the spec (§4.4): `calculate_mixed_potential`, with the
revenue inputs already projected out of the energy and agri results. -/
def calcMixedModel (energyRevenue agriRevenue : ℚ) : MixedDict :=
  match buildScenarios energyRevenue agriRevenue with
  | [] => ⟨[], none⟩
  | s :: rest => ⟨s :: rest, some (pickBest s rest)⟩

/-- Read one depth layer out of a (possibly per-layer) soil value. -/
def soilLayer (sv : SoilVal) (layer : String) : Option Val :=
  match sv with
  | .dict m => m.lookup layer
  | .scalar _ => none

lemma pyArea_snd (a b : Option ℚ) :
    (pyArea a b).2 = if (pyArea a b).1 ≠ 0 then (pyArea a b).1 / 10000 else 0 := rfl

/-- C3: a soil property the gateway returns as a single scalar is stored
under all three depth layers "0-5cm", "5-15cm", "15-30cm" with that same
value, while a property already given as a per-layer dict is kept
unchanged. -/
theorem soil_scalar_broadcast_all_layers (raw : SoilData) (prop : String) :
    (∀ v : Val, (prop, SoilVal.scalar v) ∈ raw →
      (prop, SoilVal.dict [("0-5cm", v), ("5-15cm", v), ("15-30cm", v)])
        ∈ buildSoilData raw) ∧
    (∀ m, (prop, SoilVal.dict m) ∈ raw →
      (prop, SoilVal.dict m) ∈ buildSoilData raw) ∧
    (∀ v : Val, ∀ layer ∈ ["0-5cm", "5-15cm", "15-30cm"],
      soilLayer (broadcastSoil (SoilVal.scalar v)) layer = some v) := by
  refine ⟨?_, ?_, ?_⟩
  · intro v hv
    exact List.mem_map.mpr ⟨(prop, SoilVal.scalar v), hv, rfl⟩
  · intro m hm
    exact List.mem_map.mpr ⟨(prop, SoilVal.dict m), hm, rfl⟩
  · intro v layer hl
    fin_cases hl <;> rfl

/-- Witness for C3 at a concrete gateway response containing one scalar
property and one per-layer property. -/
theorem soil_scalar_broadcast_all_layers_witness :
    ("ph", SoilVal.dict [("0-5cm", .num 7), ("5-15cm", .num 7), ("15-30cm", .num 7)])
      ∈ buildSoilData
          [("ph", SoilVal.scalar (.num 7)),
           ("oc", SoilVal.dict [("0-5cm", .num 1)])] ∧
    ("oc", SoilVal.dict [("0-5cm", .num 1)])
      ∈ buildSoilData
          [("ph", SoilVal.scalar (.num 7)),
           ("oc", SoilVal.dict [("0-5cm", .num 1)])] :=
  ⟨(soil_scalar_broadcast_all_layers
      [("ph", SoilVal.scalar (.num 7)), ("oc", SoilVal.dict [("0-5cm", .num 1)])]
      "ph").1 (.num 7) (by decide),
   (soil_scalar_broadcast_all_layers
      [("ph", SoilVal.scalar (.num 7)), ("oc", SoilVal.dict [("0-5cm", .num 1)])]
      "oc").2.1 [("0-5cm", .num 1)] (by decide)⟩

/-- C7 (amended): the pair passed downstream always satisfies
`area_m2 = area_ha × 10000`; when only `area_ha` is stored the passed
`area_m2` is `area_ha × 10000`; and when both stored fields are zero or
absent (Python-falsy) both passed values are 0.  (The claim's stronger
"neither stored field positive ⟹ both values 0" fails for negative
stored areas, which are truthy in Python: see the counterexample.) -/
theorem area_unit_invariant :
    (∀ m2 ha : Option ℚ, (pyArea m2 ha).1 = (pyArea m2 ha).2 * 10000) ∧
    (∀ h : ℚ, pyArea none (some h) = (h * 10000, h)) ∧
    pyArea none none = (0, 0) ∧
    pyArea (some 0) none = (0, 0) ∧
    pyArea none (some 0) = (0, 0) ∧
    pyArea (some 0) (some 0) = (0, 0) := by
  refine ⟨?_, ?_, by norm_num [pyArea], by norm_num [pyArea],
          by norm_num [pyArea], by norm_num [pyArea]⟩
  · intro m2 ha
    rw [pyArea_snd]
    by_cases hm : (pyArea m2 ha).1 = 0
    · simp [hm]
    · rw [if_pos hm, div_mul_cancel₀ _ (by norm_num : (10000 : ℚ) ≠ 0)]
  · intro h
    by_cases h0 : h = 0
    · simp [pyArea, h0]
    · have h1 : h * 10000 ≠ 0 := mul_ne_zero h0 (by norm_num)
      simp only [pyArea, if_neg (fun hc => h0 hc), h0]
      simp [h0, h1, mul_div_assoc]

/-- C7 counterexample: with stored `area_m2 = NULL` and stored
`area_ha = -1` — neither stored field positive — the handler passes
`(-10000, -1)` downstream, not `(0, 0)`: Python's `or` tests
truthiness (`≠ 0`), not positivity. -/
theorem area_negative_not_zeroed :
    pyArea none (some (-1)) = (-10000, -1) ∧
    pyArea none (some (-1)) ≠ (0, 0) ∧ ¬ (0 < (-1 : ℚ)) := by
  refine ⟨by norm_num [pyArea], ?_, by norm_num⟩
  norm_num [pyArea]

lemma normalizeBucket_eq {b n : Bucket} (h : normalizeBucket b = some n) :
    ∃ d, pyAdd (dgetD b "pv_energy_kwh" (.num 0)) (dgetD b "wind_energy_kwh" (.num 0))
           = some d ∧
      n = [("month", dgetD b "month" (.str "")),
           ("energy", dgetD b "energy" d),
           ("revenue", dgetD b "revenue" (dgetD b "revenue_inr" (.num 0))),
           ("pv_energy_kwh", dgetD b "pv_energy_kwh" (.num 0)),
           ("wind_energy_kwh", dgetD b "wind_energy_kwh" (.num 0))] := by
  unfold normalizeBucket at h
  rcases hadd : pyAdd (dgetD b "pv_energy_kwh" (.num 0)) (dgetD b "wind_energy_kwh" (.num 0))
    with _ | d
  · rw [hadd] at h
    exact absurd h (by simp)
  · rw [hadd] at h
    simp only [Option.some.injEq] at h
    exact ⟨d, rfl, h.symm⟩

lemma normalizeBucket_idem {b n : Bucket} (h : normalizeBucket b = some n) :
    normalizeBucket n = some n := by
  obtain ⟨d, hadd, rfl⟩ := normalizeBucket_eq h
  simp only [dgetD, dget] at hadd
  simp [normalizeBucket, dgetD, dget, List.lookup, hadd]

lemma normalizeBuckets_mem {bs ns : List Bucket} (h : normalizeBuckets bs = some ns) :
    ∀ n ∈ ns, ∃ b ∈ bs, normalizeBucket b = some n := by
  induction bs generalizing ns with
  | nil =>
      unfold normalizeBuckets at h
      simp only [Option.some.injEq] at h
      subst h
      simp
  | cons b bs ih =>
      unfold normalizeBuckets at h
      rcases h1 : normalizeBucket b with _ | n1 <;> rw [h1] at h
      · exact absurd h (by simp)
      · rcases h2 : normalizeBuckets bs with _ | ns1 <;> rw [h2] at h
        · exact absurd h (by simp)
        · simp only [Option.some.injEq] at h
          subst h
          intro n hn
          rcases List.mem_cons.mp hn with rfl | hn
          · exact ⟨b, List.mem_cons_self b bs, h1⟩
          · obtain ⟨b2, hb2, hb2n⟩ := ih h2 n hn
            exact ⟨b2, List.mem_cons_of_mem b hb2, hb2n⟩

lemma normalizeBuckets_idem {bs ns : List Bucket} (h : normalizeBuckets bs = some ns) :
    normalizeBuckets ns = some ns := by
  induction bs generalizing ns with
  | nil =>
      unfold normalizeBuckets at h
      simp only [Option.some.injEq] at h
      subst h
      rfl
  | cons b bs ih =>
      unfold normalizeBuckets at h
      rcases h1 : normalizeBucket b with _ | n1 <;> rw [h1] at h
      · exact absurd h (by simp)
      · rcases h2 : normalizeBuckets bs with _ | ns1 <;> rw [h2] at h
        · exact absurd h (by simp)
        · simp only [Option.some.injEq] at h
          subst h
          unfold normalizeBuckets
          rw [normalizeBucket_idem h1, ih h2]

/-- C8: the monthly-breakdown default-filling step is idempotent — if a
list of buckets normalizes (no `TypeError`), normalizing the result
again succeeds and returns it unchanged. -/
theorem monthly_normalization_idempotent (bs ns : List Bucket)
    (h : normalizeBuckets bs = some ns) : normalizeBuckets ns = some ns :=
  normalizeBuckets_idem h

/-- Witness for C8 at a concrete two-bucket breakdown (one bucket with
an independent `energy`/`revenue_inr`, one with neither). -/
theorem monthly_normalization_idempotent_witness :
    normalizeBuckets
      [[("month", Val.str "Jan"), ("energy", Val.num 11), ("revenue_inr", Val.num 3),
        ("pv_energy_kwh", Val.num 5)],
       [("pv_energy_kwh", Val.num 2), ("wind_energy_kwh", Val.num 4)]]
      = some
      [[("month", Val.str "Jan"), ("energy", Val.num 11), ("revenue", Val.num 3),
        ("pv_energy_kwh", Val.num 5), ("wind_energy_kwh", Val.num 0)],
       [("month", Val.str ""), ("energy", Val.num 6), ("revenue", Val.num 0),
        ("pv_energy_kwh", Val.num 2), ("wind_energy_kwh", Val.num 4)]] ∧
    normalizeBuckets
      [[("month", Val.str "Jan"), ("energy", Val.num 11), ("revenue", Val.num 3),
        ("pv_energy_kwh", Val.num 5), ("wind_energy_kwh", Val.num 0)],
       [("month", Val.str ""), ("energy", Val.num 6), ("revenue", Val.num 0),
        ("pv_energy_kwh", Val.num 2), ("wind_energy_kwh", Val.num 4)]]
      = some
      [[("month", Val.str "Jan"), ("energy", Val.num 11), ("revenue", Val.num 3),
        ("pv_energy_kwh", Val.num 5), ("wind_energy_kwh", Val.num 0)],
       [("month", Val.str ""), ("energy", Val.num 6), ("revenue", Val.num 0),
        ("pv_energy_kwh", Val.num 2), ("wind_energy_kwh", Val.num 4)]] := by
  have h1 :
      normalizeBuckets
        [[("month", Val.str "Jan"), ("energy", Val.num 11), ("revenue_inr", Val.num 3),
          ("pv_energy_kwh", Val.num 5)],
         [("pv_energy_kwh", Val.num 2), ("wind_energy_kwh", Val.num 4)]]
        = some
        [[("month", Val.str "Jan"), ("energy", Val.num 11), ("revenue", Val.num 3),
          ("pv_energy_kwh", Val.num 5), ("wind_energy_kwh", Val.num 0)],
         [("month", Val.str ""), ("energy", Val.num 6), ("revenue", Val.num 0),
          ("pv_energy_kwh", Val.num 2), ("wind_energy_kwh", Val.num 4)]] := by
    simp [normalizeBuckets, normalizeBucket, dgetD, dget, List.lookup, pyAdd]
    norm_num
  exact ⟨h1, monthly_normalization_idempotent _ _ h1⟩

/-- C2: every bucket the normalization emits carries a `pv_energy_kwh`
value, a `wind_energy_kwh` value, an `energy` value defaulting to the
sum of the pv and wind entries when no independent `energy` key was
supplied, and a `revenue` value defaulting to the alternate-name
`revenue_inr` entry when the primary key is absent — uniformly, so no
normalized bucket is missing any of these keys. -/
theorem monthly_normalization_defaults (bs ns : List Bucket)
    (h : normalizeBuckets bs = some ns) :
    ∀ n ∈ ns, ∃ b ∈ bs,
      (∃ d, pyAdd (dgetD b "pv_energy_kwh" (.num 0)) (dgetD b "wind_energy_kwh" (.num 0))
              = some d ∧ dget n "energy" = some (dgetD b "energy" d)) ∧
      dget n "pv_energy_kwh" = some (dgetD b "pv_energy_kwh" (.num 0)) ∧
      dget n "wind_energy_kwh" = some (dgetD b "wind_energy_kwh" (.num 0)) ∧
      dget n "revenue" = some (dgetD b "revenue" (dgetD b "revenue_inr" (.num 0))) ∧
      (dget n "month").isSome ∧ (dget n "energy").isSome ∧ (dget n "revenue").isSome ∧
      (dget n "pv_energy_kwh").isSome ∧ (dget n "wind_energy_kwh").isSome := by
  intro n hn
  obtain ⟨b, hb, hnb⟩ := normalizeBuckets_mem h n hn
  obtain ⟨d, hadd, rfl⟩ := normalizeBucket_eq hnb
  refine ⟨b, hb, ⟨d, hadd, ?_⟩, ?_, ?_, ?_, ?_, ?_, ?_, ?_, ?_⟩ <;>
    simp [dget, List.lookup]

/-- Witness for C2: a bucket with no `energy` and no `revenue` key but a
`revenue_inr` key; its normalization fills `energy` with `pv + wind` and
`revenue` with the `revenue_inr` value. -/
theorem monthly_normalization_defaults_witness :
    ∃ b ∈ [[("revenue_inr", Val.num 9), ("pv_energy_kwh", Val.num 1),
            ("wind_energy_kwh", Val.num 2)]],
      (∃ d, pyAdd (dgetD b "pv_energy_kwh" (.num 0)) (dgetD b "wind_energy_kwh" (.num 0))
              = some d ∧
        dget [("month", Val.str ""), ("energy", Val.num 3), ("revenue", Val.num 9),
              ("pv_energy_kwh", Val.num 1), ("wind_energy_kwh", Val.num 2)] "energy"
          = some (dgetD b "energy" d)) ∧
      dget [("month", Val.str ""), ("energy", Val.num 3), ("revenue", Val.num 9),
            ("pv_energy_kwh", Val.num 1), ("wind_energy_kwh", Val.num 2)] "pv_energy_kwh"
        = some (dgetD b "pv_energy_kwh" (.num 0)) ∧
      dget [("month", Val.str ""), ("energy", Val.num 3), ("revenue", Val.num 9),
            ("pv_energy_kwh", Val.num 1), ("wind_energy_kwh", Val.num 2)] "wind_energy_kwh"
        = some (dgetD b "wind_energy_kwh" (.num 0)) ∧
      dget [("month", Val.str ""), ("energy", Val.num 3), ("revenue", Val.num 9),
            ("pv_energy_kwh", Val.num 1), ("wind_energy_kwh", Val.num 2)] "revenue"
        = some (dgetD b "revenue" (dgetD b "revenue_inr" (.num 0))) ∧
      (dget [("month", Val.str ""), ("energy", Val.num 3), ("revenue", Val.num 9),
             ("pv_energy_kwh", Val.num 1), ("wind_energy_kwh", Val.num 2)] "month").isSome ∧
      (dget [("month", Val.str ""), ("energy", Val.num 3), ("revenue", Val.num 9),
             ("pv_energy_kwh", Val.num 1), ("wind_energy_kwh", Val.num 2)] "energy").isSome ∧
      (dget [("month", Val.str ""), ("energy", Val.num 3), ("revenue", Val.num 9),
             ("pv_energy_kwh", Val.num 1), ("wind_energy_kwh", Val.num 2)] "revenue").isSome ∧
      (dget [("month", Val.str ""), ("energy", Val.num 3), ("revenue", Val.num 9),
             ("pv_energy_kwh", Val.num 1),
             ("wind_energy_kwh", Val.num 2)] "pv_energy_kwh").isSome ∧
      (dget [("month", Val.str ""), ("energy", Val.num 3), ("revenue", Val.num 9),
             ("pv_energy_kwh", Val.num 1),
             ("wind_energy_kwh", Val.num 2)] "wind_energy_kwh").isSome := by
  have h1 :
      normalizeBuckets
        [[("revenue_inr", Val.num 9), ("pv_energy_kwh", Val.num 1),
          ("wind_energy_kwh", Val.num 2)]]
        = some
        [[("month", Val.str ""), ("energy", Val.num 3), ("revenue", Val.num 9),
          ("pv_energy_kwh", Val.num 1), ("wind_energy_kwh", Val.num 2)]] := by
    simp [normalizeBuckets, normalizeBucket, dgetD, dget, List.lookup, pyAdd]
    norm_num
  exact monthly_normalization_defaults _ _ h1 _ (by simp)

lemma processAnalysis_soil_raise (a : Analysis) (gs rc ee ea cm)
    (hgs : gs a.latitude a.longitude = (.error () : Except Unit (Option SoilData))) :
    processAnalysis a gs rc ee ea cm = .error () := by
  simp [processAnalysis, hgs]

lemma processAnalysis_ok_eq (a : Analysis) (gs rc ee ea cm) (rawOpt ns)
    (hgs : gs a.latitude a.longitude = .ok rawOpt)
    (hN : normalizeBuckets (setDefaults (energyStage ee a.latitude a.longitude
            (pyArea a.area_m2 a.area_ha).1)).monthly_breakdown = some ns) :
    processAnalysis a gs rc ee ea cm = .ok
      ⟨buildSoilData (rawOpt.getD []),
       cropStage rc (buildSoilData (rawOpt.getD [])),
       normEnergyWith (setDefaults (energyStage ee a.latitude a.longitude
         (pyArea a.area_m2 a.area_ha).1)) ns,
       agriStage ea (cropStage rc (buildSoilData (rawOpt.getD [])))
         (pyArea a.area_m2 a.area_ha).2,
       mixedStage cm
         (normEnergyWith (setDefaults (energyStage ee a.latitude a.longitude
           (pyArea a.area_m2 a.area_ha).1)) ns)
         (agriStage ea (cropStage rc (buildSoilData (rawOpt.getD [])))
           (pyArea a.area_m2 a.area_ha).2)
         (pyArea a.area_m2 a.area_ha).2⟩ := by
  simp [processAnalysis, hgs, hN]

lemma processAnalysis_norm_raise (a : Analysis) (gs rc ee ea cm) (rawOpt)
    (hgs : gs a.latitude a.longitude = .ok rawOpt)
    (hN : normalizeBuckets (setDefaults (energyStage ee a.latitude a.longitude
            (pyArea a.area_m2 a.area_ha).1)).monthly_breakdown = none) :
    processAnalysis a gs rc ee ea cm = .error () := by
  simp [processAnalysis, hgs, hN]

lemma processAnalysis_ok_cases {a : Analysis} {gs rc ee ea cm} {doc : SavedDoc}
    (h : processAnalysis a gs rc ee ea cm = .ok doc) :
    ∃ rawOpt ns, gs a.latitude a.longitude = .ok rawOpt ∧
      normalizeBuckets (setDefaults (energyStage ee a.latitude a.longitude
        (pyArea a.area_m2 a.area_ha).1)).monthly_breakdown = some ns ∧
      doc.energy_results.monthly_breakdown = ns := by
  rcases hgs : gs a.latitude a.longitude with e | rawOpt
  · cases e
    rw [processAnalysis_soil_raise a gs rc ee ea cm hgs] at h
    exact absurd h (by simp)
  · rcases hN : normalizeBuckets (setDefaults (energyStage ee a.latitude a.longitude
        (pyArea a.area_m2 a.area_ha).1)).monthly_breakdown with _ | ns
    · rw [processAnalysis_norm_raise a gs rc ee ea cm rawOpt hgs hN] at h
      exact absurd h (by simp)
    · rw [processAnalysis_ok_eq a gs rc ee ea cm rawOpt ns hgs hN] at h
      simp only [Except.ok.injEq] at h
      exact ⟨rawOpt, ns, rfl, rfl, by rw [← h]; rfl⟩

/-- C10: every bucket stored in the final document's `monthly_breakdown`
has exactly the five keys `month`, `energy`, `revenue`, `pv_energy_kwh`,
`wind_energy_kwh` (in that order); any other key of a source bucket —
`revenue_inr` for instance — is dropped; and a missing `month` defaults
to the empty string. -/
theorem stored_breakdown_exact_keys
    (a : Analysis) (gs rc ee ea cm) (doc : SavedDoc)
    (h : processAnalysis a gs rc ee ea cm = .ok doc) :
    (∀ n ∈ doc.energy_results.monthly_breakdown,
      n.map Prod.fst = ["month", "energy", "revenue", "pv_energy_kwh", "wind_energy_kwh"]) ∧
    (∀ b n, normalizeBucket b = some n →
      dget b "month" = none → dget n "month" = some (.str "")) := by
  constructor
  · intro n hn
    obtain ⟨rawOpt, ns, hgs, hN, hdoc⟩ := processAnalysis_ok_cases h
    rw [hdoc] at hn
    obtain ⟨b, _, hnb⟩ := normalizeBuckets_mem hN n hn
    obtain ⟨d, _, rfl⟩ := normalizeBucket_eq hnb
    rfl
  · intro b n hnb hmonth
    obtain ⟨d, _, rfl⟩ := normalizeBucket_eq hnb
    simp only [dget] at hmonth
    simp [dget, List.lookup, dgetD, hmonth]

/-- Witness for C10: a run whose energy estimator returns one bucket
carrying a stray `revenue_inr` key and no `month`; the stored bucket has
exactly the five canonical keys and an empty-string month. -/
theorem stored_breakdown_exact_keys_witness :
    [("month", Val.str ""), ("energy", Val.num 7), ("revenue", Val.num 4),
     ("pv_energy_kwh", Val.num 7), ("wind_energy_kwh", Val.num 0)].map Prod.fst
      = ["month", "energy", "revenue", "pv_energy_kwh", "wind_energy_kwh"] ∧
    dget [("month", Val.str ""), ("energy", Val.num 7), ("revenue", Val.num 4),
          ("pv_energy_kwh", Val.num 7), ("wind_energy_kwh", Val.num 0)] "month"
      = some (.str "") := by
  have hrun :
      processAnalysis ⟨10, 20, some 100, none⟩
        (fun _ _ => .ok (some []))
        (fun _ => .ok (some []))
        (fun _ _ _ => .ok (some ⟨none, none, none, none,
          some [[("revenue_inr", Val.num 4), ("pv_energy_kwh", Val.num 7)]],
          none, none⟩))
        (fun _ _ => .ok none)
        (fun _ _ _ => .ok none)
        = .ok
        ⟨[], [],
         ⟨.num 0, .num 0, .num 0, .num 0,
          [[("month", Val.str ""), ("energy", Val.num 7), ("revenue", Val.num 4),
            ("pv_energy_kwh", Val.num 7), ("wind_energy_kwh", Val.num 0)]],
          .str "", .str ""⟩,
         defaultAgri, defaultMixed⟩ := by
    have hN : normalizeBuckets (setDefaults (energyStage
        (fun _ _ _ => (.ok (some ⟨none, none, none, none,
          some [[("revenue_inr", Val.num 4), ("pv_energy_kwh", Val.num 7)]],
          none, none⟩) : Except Unit (Option EnergyDict)))
        (10 : ℚ) (20 : ℚ) (pyArea (some 100) none).1)).monthly_breakdown
        = some [[("month", Val.str ""), ("energy", Val.num 7), ("revenue", Val.num 4),
                 ("pv_energy_kwh", Val.num 7), ("wind_energy_kwh", Val.num 0)]] := by
      simp [energyStage, setDefaults, normalizeBuckets, normalizeBucket,
            dgetD, dget, List.lookup, pyAdd]
    have := processAnalysis_ok_eq ⟨10, 20, some 100, none⟩
      (fun _ _ => .ok (some []))
      (fun _ => .ok (some []))
      (fun _ _ _ => .ok (some ⟨none, none, none, none,
        some [[("revenue_inr", Val.num 4), ("pv_energy_kwh", Val.num 7)]],
        none, none⟩))
      (fun _ _ => .ok none)
      (fun _ _ _ => .ok none)
      (some []) _ rfl hN
    rw [this]
    simp [buildSoilData, cropStage, normEnergyWith, energyStage, setDefaults,
          agriStage, mixedStage, pyOrAgri]
  exact ⟨(stored_breakdown_exact_keys _ _ _ _ _ _ _ hrun).1 _ (by simp),
         (stored_breakdown_exact_keys _ _ _ _ _ _ _ hrun).2
           [("revenue_inr", Val.num 4), ("pv_energy_kwh", Val.num 7)] _
           (by simp [normalizeBucket, dgetD, dget, List.lookup, pyAdd])
           (by simp [dget, List.lookup])⟩

/-- C1 counterexample: for an analysis with validated inputs, a raising
soil fetch aborts the whole run — the outer handler redirects to the
index page and no result document is saved — even though every other
stage would succeed: `get_soil_data` (views.py line 92) is the one
downstream call outside any local `try`. -/
theorem pipeline_soil_raise_aborts :
    processAnalysis ⟨10, 20, some 100, none⟩
      (fun _ _ => .error ())
      (fun _ => .ok (some []))
      (fun _ _ _ => .ok (some emptyEnergyDict))
      (fun _ _ => .ok (some [("details", AgriVal.arr [])]))
      (fun _ _ _ => .ok (some ⟨[], none⟩))
      = .error () :=
  processAnalysis_soil_raise _ _ _ _ _ _ rfl

/-- C1 (amended): failures in crop recommendation, energy estimation,
agri revenue, and mixed analysis are each caught locally and replaced by
that stage's documented default, and once the soil fetch returns without
raising (and the energy result's monthly buckets normalize without a
type error) the run always completes with a saved result document
containing the partial results.  The original claim's inclusion of the
soil fetch among the locally-caught stages is refuted by the
counterexample. -/
theorem pipeline_completes_after_soil (a : Analysis) (gs rc ee ea cm) (rawOpt ns)
    (hgs : gs a.latitude a.longitude = .ok rawOpt)
    (hN : normalizeBuckets (setDefaults (energyStage ee a.latitude a.longitude
            (pyArea a.area_m2 a.area_ha).1)).monthly_breakdown = some ns) :
    (∃ doc, processAnalysis a gs rc ee ea cm = .ok doc) ∧
    (∀ soil, rc soil = .error () → cropStage rc soil = []) ∧
    (∀ lat lon m2, ee lat lon m2 = .error () →
      energyStage ee lat lon m2 = emptyEnergyDict) ∧
    (∀ crops ha, ea crops ha = .error () → agriStage ea crops ha = defaultAgri) ∧
    (∀ e agri ha, cm e agri ha = .error () → mixedStage cm e agri ha = defaultMixed) := by
  refine ⟨⟨_, processAnalysis_ok_eq a gs rc ee ea cm rawOpt ns hgs hN⟩, ?_, ?_, ?_, ?_⟩
  · intro soil hr
    simp [cropStage, hr]
  · intro lat lon m2 hr
    simp [energyStage, hr]
  · intro crops ha hr
    simp [agriStage, hr]
  · intro e agri ha hr
    simp [mixedStage, hr]

/-- Witness for C1 (amended): a concrete run in which every stage after
the soil fetch raises, yet a document is saved. -/
theorem pipeline_completes_after_soil_witness :
    (∃ doc, processAnalysis ⟨10, 20, some 100, none⟩
      (fun _ _ => .ok (some [("ph", SoilVal.scalar (.num 7))]))
      (fun _ => .error ())
      (fun _ _ _ => .error ())
      (fun _ _ => .error ())
      (fun _ _ _ => .error ())
      = .ok doc) :=
  (pipeline_completes_after_soil ⟨10, 20, some 100, none⟩
    (fun _ _ => .ok (some [("ph", SoilVal.scalar (.num 7))]))
    (fun _ => .error ())
    (fun _ _ _ => .error ())
    (fun _ _ => .error ())
    (fun _ _ _ => .error ())
    (some [("ph", SoilVal.scalar (.num 7))]) [] rfl rfl).1

/-- C4: whenever the energy estimation stage raises or returns no data,
the stored document's energy section is the all-zero `EnergyResult`
(`total_energy_kwh`, `pv_energy_kwh`, `wind_energy_kwh`, `total_revenue`
all 0, empty `monthly_breakdown`, empty plot strings) and the run still
completes with a saved document rather than raising. -/
theorem energy_failure_zero_filled (a : Analysis) (gs rc ee ea cm) (rawOpt)
    (hgs : gs a.latitude a.longitude = .ok rawOpt)
    (hee : ee a.latitude a.longitude (pyArea a.area_m2 a.area_ha).1 = .error () ∨
           ee a.latitude a.longitude (pyArea a.area_m2 a.area_ha).1 = .ok none) :
    ∃ doc, processAnalysis a gs rc ee ea cm = .ok doc ∧
      doc.energy_results = zeroNormEnergy := by
  have hE : energyStage ee a.latitude a.longitude (pyArea a.area_m2 a.area_ha).1
      = emptyEnergyDict := by
    rcases hee with hee | hee <;> simp [energyStage, hee]
  have hN : normalizeBuckets (setDefaults (energyStage ee a.latitude a.longitude
      (pyArea a.area_m2 a.area_ha).1)).monthly_breakdown = some [] := by
    rw [hE]; rfl
  refine ⟨_, processAnalysis_ok_eq a gs rc ee ea cm rawOpt [] hgs hN, ?_⟩
  show normEnergyWith (setDefaults (energyStage ee a.latitude a.longitude
    (pyArea a.area_m2 a.area_ha).1)) [] = zeroNormEnergy
  rw [hE]
  rfl

/-- Witness for C4: a concrete run whose energy estimator raises; the
saved document's energy section is all-zero. -/
theorem energy_failure_zero_filled_witness :
    ∃ doc, processAnalysis ⟨10, 20, none, some 2⟩
      (fun _ _ => .ok (some [("ph", SoilVal.scalar (.num 7))]))
      (fun _ => .ok (some [[("crop", Val.str "rice")]]))
      (fun _ _ _ => .error ())
      (fun _ _ => .ok (some [("details", AgriVal.arr []),
                             ("aggregate_revenue", AgriVal.prim (.num 5))]))
      (fun _ _ _ => .ok (some ⟨[⟨1, 5⟩], some ⟨1, 5⟩⟩))
      = .ok doc ∧ doc.energy_results = zeroNormEnergy :=
  energy_failure_zero_filled ⟨10, 20, none, some 2⟩ _ _ _ _ _ _ rfl (Or.inl rfl)

/-- C5: the crop-recommendation stage never blocks the pipeline: if
`recommend_crops` raises or returns no data (a `None` or an empty list),
the handler records an empty recommendation sequence and the run
continues through the remaining stages to a saved document. -/
theorem crops_failure_empty (a : Analysis) (gs rc ee ea cm) (rawOpt ns)
    (hgs : gs a.latitude a.longitude = .ok rawOpt)
    (hrc : rc (buildSoilData (rawOpt.getD [])) = .error () ∨
           rc (buildSoilData (rawOpt.getD [])) = .ok none ∨
           rc (buildSoilData (rawOpt.getD [])) = .ok (some []))
    (hN : normalizeBuckets (setDefaults (energyStage ee a.latitude a.longitude
            (pyArea a.area_m2 a.area_ha).1)).monthly_breakdown = some ns) :
    ∃ doc, processAnalysis a gs rc ee ea cm = .ok doc ∧
      doc.crop_recommendations = [] := by
  have hc : cropStage rc (buildSoilData (rawOpt.getD [])) = [] := by
    rcases hrc with h | h | h <;> simp [cropStage, h]
  exact ⟨_, processAnalysis_ok_eq a gs rc ee ea cm rawOpt ns hgs hN, hc⟩

/-- Witness for C5: a concrete run whose crop recommender raises; the
run completes and stores an empty recommendation list. -/
theorem crops_failure_empty_witness :
    ∃ doc, processAnalysis ⟨10, 20, some 100, none⟩
      (fun _ _ => .ok (some []))
      (fun _ => .error ())
      (fun _ _ _ => .ok (some emptyEnergyDict))
      (fun _ _ => .ok (some [("details", AgriVal.arr [])]))
      (fun _ _ _ => .ok (some ⟨[], none⟩))
      = .ok doc ∧ doc.crop_recommendations = [] :=
  crops_failure_empty ⟨10, 20, some 100, none⟩ _ _ _ _ _ (some []) []
    rfl (Or.inl rfl) rfl

/-- C9: whenever the agri-revenue stage raises or returns a falsy value,
the `agri_revenue` section stored in the result document is exactly the
dict `{"details": []}` — an empty details list and no
`aggregate_revenue` key at all. -/
theorem agri_failure_details_only (a : Analysis) (gs rc ee ea cm) (rawOpt ns)
    (hgs : gs a.latitude a.longitude = .ok rawOpt)
    (hN : normalizeBuckets (setDefaults (energyStage ee a.latitude a.longitude
            (pyArea a.area_m2 a.area_ha).1)).monthly_breakdown = some ns)
    (hea : ea (cropStage rc (buildSoilData (rawOpt.getD [])))
             (pyArea a.area_m2 a.area_ha).2 = .error () ∨
           ea (cropStage rc (buildSoilData (rawOpt.getD [])))
             (pyArea a.area_m2 a.area_ha).2 = .ok none ∨
           ea (cropStage rc (buildSoilData (rawOpt.getD [])))
             (pyArea a.area_m2 a.area_ha).2 = .ok (some [])) :
    ∃ doc, processAnalysis a gs rc ee ea cm = .ok doc ∧
      doc.agri_revenue = [("details", AgriVal.arr [])] ∧
      doc.agri_revenue.lookup "aggregate_revenue" = none := by
  have hA : agriStage ea (cropStage rc (buildSoilData (rawOpt.getD [])))
      (pyArea a.area_m2 a.area_ha).2 = defaultAgri := by
    rcases hea with h | h | h <;> simp [agriStage, h, pyOrAgri]
  refine ⟨_, processAnalysis_ok_eq a gs rc ee ea cm rawOpt ns hgs hN, ?_, ?_⟩
  · exact hA
  · show (agriStage ea (cropStage rc (buildSoilData (rawOpt.getD [])))
      (pyArea a.area_m2 a.area_ha).2).lookup "aggregate_revenue" = none
    rw [hA]
    rfl

/-- Witness for C9: a concrete run whose agri estimator returns `None`;
the stored agri section is exactly `{"details": []}`. -/
theorem agri_failure_details_only_witness :
    ∃ doc, processAnalysis ⟨10, 20, some 100, none⟩
      (fun _ _ => .ok (some []))
      (fun _ => .ok (some [[("crop", Val.str "rice")]]))
      (fun _ _ _ => .ok (some emptyEnergyDict))
      (fun _ _ => .ok none)
      (fun _ _ _ => .ok (some ⟨[], none⟩))
      = .ok doc ∧
      doc.agri_revenue = [("details", AgriVal.arr [])] ∧
      doc.agri_revenue.lookup "aggregate_revenue" = none :=
  agri_failure_details_only ⟨10, 20, some 100, none⟩ _ _ _ _ _ (some []) []
    rfl rfl (Or.inr (Or.inl rfl))

lemma betterScenario_true_le {s t : Scenario} (h : betterScenario s t = true) :
    t.revenue ≤ s.revenue := by
  simp only [betterScenario, Bool.or_eq_true, Bool.and_eq_true, decide_eq_true_eq] at h
  rcases h with h | ⟨h, _⟩
  · exact le_of_lt h
  · exact le_of_eq h.symm

lemma betterScenario_false_le {s t : Scenario} (h : betterScenario s t = false) :
    s.revenue ≤ t.revenue := by
  simp only [betterScenario, Bool.or_eq_false_iff, decide_eq_false_iff_not] at h
  exact le_of_not_lt h.1

lemma pickBest_max : ∀ (l : List Scenario) (best : Scenario),
    best.revenue ≤ (pickBest best l).revenue ∧
    ∀ t ∈ l, t.revenue ≤ (pickBest best l).revenue := by
  intro l
  induction l with
  | nil => intro best; exact ⟨le_refl _, by simp⟩
  | cons s rest ih =>
      intro best
      have hstep : best.revenue ≤ (if betterScenario s best then s else best).revenue ∧
          s.revenue ≤ (if betterScenario s best then s else best).revenue := by
        by_cases hb : betterScenario s best
        · rw [if_pos hb]
          exact ⟨betterScenario_true_le hb, le_refl _⟩
        · rw [if_neg hb]
          exact ⟨le_refl _, betterScenario_false_le (Bool.not_eq_true _ ▸ hb)⟩
      obtain ⟨hmain1, hmain2⟩ := ih (if betterScenario s best then s else best)
      refine ⟨le_trans hstep.1 hmain1, ?_⟩
      intro t ht
      rcases List.mem_cons.mp ht with rfl | ht
      · exact le_trans hstep.2 hmain1
      · exact hmain2 t ht

/-- C6 (spec-modelled): the scenario optimizer builds exactly the five
scenarios with allocation fractions 0, 1/4, 1/2, 3/4, 1, each with
revenue `f × energy_revenue + (1 − f) × agri_revenue`; the selected best
scenario maximizes revenue over the built scenarios; and for
energy revenue 1000 and agri revenue 600 the scenario revenues are
600, 700, 800, 900, 1000 with best scenario `f = 1` at revenue 1000. -/
theorem mixed_scenarios_model :
    (∀ e a : ℚ, (calcMixedModel e a).scenarios =
      [⟨0, scenarioRevenue e a 0⟩, ⟨1/4, scenarioRevenue e a (1/4)⟩,
       ⟨1/2, scenarioRevenue e a (1/2)⟩, ⟨3/4, scenarioRevenue e a (3/4)⟩,
       ⟨1, scenarioRevenue e a 1⟩]) ∧
    (∀ e a f : ℚ, scenarioRevenue e a f = f * e + (1 - f) * a) ∧
    (∀ e a : ℚ, ∀ s, (calcMixedModel e a).best_scenario = some s →
      ∀ t ∈ (calcMixedModel e a).scenarios, t.revenue ≤ s.revenue) ∧
    (calcMixedModel 1000 600).scenarios =
      [⟨0, 600⟩, ⟨1/4, 700⟩, ⟨1/2, 800⟩, ⟨3/4, 900⟩, ⟨1, 1000⟩] ∧
    (calcMixedModel 1000 600).best_scenario = some ⟨1, 1000⟩ := by
  refine ⟨fun e a => rfl, fun e a f => rfl, ?_, ?_, ?_⟩
  · intro e a s hs t ht
    have hbs : (calcMixedModel e a).best_scenario =
        some (pickBest ⟨0, scenarioRevenue e a 0⟩
          [⟨1/4, scenarioRevenue e a (1/4)⟩, ⟨1/2, scenarioRevenue e a (1/2)⟩,
           ⟨3/4, scenarioRevenue e a (3/4)⟩, ⟨1, scenarioRevenue e a 1⟩]) := rfl
    rw [hbs] at hs
    have hsc : (calcMixedModel e a).scenarios =
        ⟨0, scenarioRevenue e a 0⟩ ::
          [⟨1/4, scenarioRevenue e a (1/4)⟩, ⟨1/2, scenarioRevenue e a (1/2)⟩,
           ⟨3/4, scenarioRevenue e a (3/4)⟩, ⟨1, scenarioRevenue e a 1⟩] := rfl
    rw [hsc] at ht
    obtain ⟨hA, hB⟩ := pickBest_max
      [⟨1/4, scenarioRevenue e a (1/4)⟩, ⟨1/2, scenarioRevenue e a (1/2)⟩,
       ⟨3/4, scenarioRevenue e a (3/4)⟩, ⟨1, scenarioRevenue e a 1⟩]
      ⟨0, scenarioRevenue e a 0⟩
    obtain rfl : pickBest ⟨0, scenarioRevenue e a 0⟩
        [⟨1/4, scenarioRevenue e a (1/4)⟩, ⟨1/2, scenarioRevenue e a (1/2)⟩,
         ⟨3/4, scenarioRevenue e a (3/4)⟩, ⟨1, scenarioRevenue e a 1⟩] = s :=
      Option.some.inj hs
    rcases List.mem_cons.mp ht with rfl | ht
    · exact hA
    · exact hB t ht
  · show buildScenarios 1000 600 = _
    norm_num [buildScenarios, scenarioFractions, scenarioRevenue]
  · show some (pickBest ⟨0, scenarioRevenue 1000 600 0⟩
      [⟨1/4, scenarioRevenue 1000 600 (1/4)⟩, ⟨1/2, scenarioRevenue 1000 600 (1/2)⟩,
       ⟨3/4, scenarioRevenue 1000 600 (3/4)⟩, ⟨1, scenarioRevenue 1000 600 1⟩])
      = some ⟨1, 1000⟩
    norm_num [pickBest, betterScenario, scenarioRevenue]

/-- Witness for C6: the agriculture-only scenario's revenue does not
exceed the selected best scenario's revenue at the spec's test point. -/
theorem mixed_scenarios_model_witness :
    (Scenario.mk 0 600).revenue ≤ (Scenario.mk 1 1000).revenue := by
  refine mixed_scenarios_model.2.2.1 1000 600 ⟨1, 1000⟩
    mixed_scenarios_model.2.2.2.2 ⟨0, 600⟩ ?_
  rw [mixed_scenarios_model.2.2.2.1]
  simp
